import Mathlib

/-!
Verification development for the meli-token-manager repository.

The Python sources under src/meli_token_manager are shallowly embedded here:
token payloads (Python dicts produced by json.loads restricted to the
TokenSet field names of the data model) become the structure `TokenDict`;
network and secret-store effects become explicit parameters and event
traces; exceptions become `Except String`.
-/

namespace Meli

/-- Truthiness of an optional string under Python rules: `None` and the
empty string are falsy, every other string is truthy.  Embeds tests such
as `if not token_data.get("access_token")`. -/
def strTruthy : Option String → Bool
  | none => false
  | some s => !s.isEmpty

/-- Truthiness of an optional integer under Python rules: `None` and `0`
are falsy.  Embeds `if expires_in:`. -/
def intTruthy : Option Int → Bool
  | none => false
  | some n => n != 0

/-- Python `x or y` where `x` is an optional string and `y` a string:
returns `y` exactly when `x` is falsy. -/
def pyOrStr (x : Option String) (y : String) : String :=
  match x with
  | none => y
  | some s => if s.isEmpty then y else s

/-- Python `x or y` where `x` is an optional integer and `y` an integer:
returns `y` exactly when `x` is `None` or `0`. -/
def pyOrInt (x : Option Int) (y : Int) : Int :=
  match x with
  | none => y
  | some n => if n = 0 then y else n

/-- A token payload dictionary: a Python dict restricted to the TokenSet
field names of the data model.  `none` stands for an absent key or a
`None` value (the code only ever distinguishes the two through
truthiness, which identifies them). -/
structure TokenDict where
  access_token : Option String := none
  refresh_token : Option String := none
  token_type : Option String := none
  scope : Option String := none
  expires_in : Option Int := none
  updated_at : Option Int := none
  expires_at : Option Int := none
deriving DecidableEq, Repr

/-- Dict emptiness: a `TokenDict` is empty when no field is present, so
Python truthiness of the dict is the negation of this.  Embeds
`if tokens:` on the dicts returned by the load helpers. -/
def TokenDict.isEmpty (t : TokenDict) : Bool :=
  t.access_token.isNone && t.refresh_token.isNone && t.token_type.isNone &&
    t.scope.isNone && t.expires_in.isNone && t.updated_at.isNone && t.expires_at.isNone

/-- Validity of a TokenSet per the data model: `access_token` and
`refresh_token` are both present and non-empty. -/
def validTokenSet (t : TokenDict) : Bool :=
  strTruthy t.access_token && strTruthy t.refresh_token

/-- State-changing events performed by the rotator and the initializer,
recorded in program order: replacing the in-memory tokens, writing the
token file, and writing the secret store. -/
inductive Ev
  | commitMem (t : TokenDict)
  | writeFile (t : TokenDict)
  | writeSecretStore (t : TokenDict)
deriving DecidableEq, Repr

/-- Result of an HTTP POST to the token endpoint: a success status with a
JSON payload, or a non-success status (which `raise_for_status` turns
into an exception). -/
inductive HttpResult
  | success (payload : TokenDict)
  | failure (status : Nat)
deriving DecidableEq, Repr

/-- Modelled from the spec: the external Configuration provider (the
env-manager package, not under src/) supplies a
`require(key) -> value | fatal` contract (spec section 6).  The optional
argument is the configured value for the key; `require` fails when it is
unset. -/
def configRequire (key : String) (value : Option String) : Except String String :=
  match value with
  | some v => .ok v
  | none => .error ("Missing required config value: " ++ key)

/-- State owned by a `TokenRotator` together with the two persistence
sinks: the in-memory dict `self._tokens`, the parsed content of the local
token file, and the parsed content of the secret store version that a
write would replace. -/
structure RotatorState where
  tokens : TokenDict
  token_file : Option TokenDict
  secret : Option TokenDict
deriving DecidableEq, Repr

/-- Embeds the expression
`self._tokens.get("refresh_token") or self._config.require("MELI_REFRESH_TOKEN")`
at the top of `TokenRotator.refresh_once`: the configured fallback is
consulted exactly when the in-memory field is absent or empty. -/
def resolveRefreshToken (memRefresh : Option String) (cfgRefreshToken : Option String) :
    Except String String :=
  match memRefresh with
  | some s =>
      if s.isEmpty then configRequire "MELI_REFRESH_TOKEN" cfgRefreshToken
      else .ok s
  | none => configRequire "MELI_REFRESH_TOKEN" cfgRefreshToken

/-- Embeds the construction of `token_data` in `TokenRotator.refresh_once`
(rotator.py lines 116 to 129) from the response payload, the refresh token
used for the request, and the current time `now = int(time.time())`. -/
def buildTokenData (payload : TokenDict) (refresh_token : String) (now : Int) : TokenDict :=
  let base : TokenDict :=
    { access_token := payload.access_token
      refresh_token := some (pyOrStr payload.refresh_token refresh_token)
      token_type := payload.token_type
      scope := payload.scope
      expires_in := payload.expires_in
      updated_at := some now
      expires_at := none }
  match payload.expires_in with
  | some n => if n != 0 then { base with expires_at := some (now + n) } else base
  | none => base

/-- Embeds `TokenRotator.refresh_once` (rotator.py lines 111 to 140).
Inputs: the current state, the configured `MELI_REFRESH_TOKEN` value (for
the fallback lookup), the outcome of the HTTP refresh request, and the
current time.  Output: the raised-or-returned value, the state after the
call, and the trace of state-changing events in program order.  The
source executes, in order: resolve the refresh token, perform the
request, build and validate `token_data`, then
`self._tokens = token_data`, `self._write_tokens_file(token_data)`,
`self._secret_storage.write_secret(...)`. -/
def refresh_once (st : RotatorState) (cfgRefreshToken : Option String)
    (resp : HttpResult) (now : Int) :
    Except String TokenDict × RotatorState × List Ev :=
  match resolveRefreshToken st.tokens.refresh_token cfgRefreshToken with
  | .error e => (.error e, st, [])
  | .ok refresh_token =>
      match resp with
      | .failure _ => (.error "Token refresh failed", st, [])
      | .success payload =>
          let token_data := buildTokenData payload refresh_token now
          if !strTruthy token_data.access_token then
            (.error "No access_token returned by MercadoLibre", st, [])
          else
            (.ok token_data,
              { tokens := token_data,
                token_file := some token_data,
                secret := some token_data },
              [Ev.commitMem token_data, Ev.writeFile token_data,
                Ev.writeSecretStore token_data])

/-- Default rotation interval from rotator.py: four hours. -/
def DEFAULT_ROTATION_INTERVAL : Int := 4 * 60 * 60

/-- Embeds the interval resolution at the top of `TokenRotator.run_forever`:
`interval = interval_seconds or self.rotation_interval_seconds or DEFAULT_ROTATION_INTERVAL`,
with Python integer truthiness. -/
def effectiveInterval (interval_seconds : Option Int) (rotation_interval_seconds : Int) : Int :=
  pyOrInt interval_seconds
    (if rotation_interval_seconds = 0 then DEFAULT_ROTATION_INTERVAL
      else rotation_interval_seconds)

/-- Embeds the body of the `while True` loop of `TokenRotator.run_forever`
(rotator.py lines 146 to 153) over a finite prefix of cycle outcomes: each
call to `refresh_once` either returns or raises, and in both cases the
loop sleeps and continues with the next cycle.  The result is the list of
sleep durations, one per cycle: `min(600, interval)` after an exception,
`interval` after a success.  Totality of this function over every outcome
list reflects that no outcome makes the loop exit. -/
def run_forever_trace (interval : Int) (cycles : List (Except String TokenDict)) : List Int :=
  cycles.map fun c =>
    match c with
    | .ok _ => interval
    | .error _ => min 600 interval

/-- Content of the local token file as seen by
`TokenRotator._load_tokens_from_file`: the file may be missing, may exist
but fail to parse, or parses to a dict. -/
inductive FileContent
  | missing
  | corrupt
  | parsed (t : TokenDict)
deriving DecidableEq, Repr

/-- Embeds `TokenRotator._load_tokens_from_file` (rotator.py lines 66 to
73): a missing file yields the empty dict, a parse failure is logged and
yields the empty dict, otherwise the parsed dict is returned. -/
def load_tokens_from_file : FileContent → TokenDict
  | .missing => {}
  | .corrupt => {}
  | .parsed t => t

/-- Content of the secret as seen by
`TokenRotator._load_tokens_from_secret`: absent (read_secret returned
`None` or an empty payload), present but not valid JSON, or a parsed
dict. -/
inductive SecretContent
  | absent
  | invalidJson
  | json (t : TokenDict)
deriving DecidableEq, Repr

/-- Embeds `TokenRotator._load_tokens_from_secret` (rotator.py lines 75
to 87): an absent or falsy payload yields the empty dict, a JSON decode
error is logged and yields the empty dict, otherwise the parsed dict is
returned. -/
def load_tokens_from_secret : SecretContent → TokenDict
  | .absent => {}
  | .invalidJson => {}
  | .json t => t

/-- Embeds `TokenRotator._bootstrap_tokens` (rotator.py lines 52 to 64).
Returns the adopted dict together with a flag that is true exactly when
the dict was adopted from the secret store and re-seeded into the file by
`self._write_tokens_file(tokens)`. -/
def rotator_bootstrap_tokens (f : FileContent) (s : SecretContent) :
    Except String (TokenDict × Bool) :=
  let tokens := load_tokens_from_file f
  if !tokens.isEmpty then .ok (tokens, false)
  else
    let tokens := load_tokens_from_secret s
    if !tokens.isEmpty then .ok (tokens, true)
    else .error "No existing tokens found. Run the initializer to obtain the first token set."

/-- Embeds the auth-code resolution in `bootstrap_tokens`
(initializer.py lines 53 to 57): when the provided code is falsy the user
is prompted and the stripped input is used instead. -/
def resolveAuthCode (auth_code : Option String) (entered : String) : String :=
  match auth_code with
  | some c => if c.isEmpty then entered else c
  | none => entered

/-- Embeds `bootstrap_tokens` (initializer.py lines 29 to 86) after
configuration loading.  Inputs: the optionally provided auth code, the
interactively entered code, and the outcome of the authorization-code
exchange.  Output: the raised-or-returned value and the trace of
persistence events in program order.  The source, on a success response,
runs `tokens = response.json()`, `_write_tokens_file(token_file_path, tokens)`,
then `storage.write_secret(...)`, and returns `tokens` without any
validation of its contents. -/
def bootstrap_tokens (auth_code : Option String) (entered : String) (resp : HttpResult) :
    Except String TokenDict × List Ev :=
  let code := resolveAuthCode auth_code entered
  if code.isEmpty then
    (.error "No auth code provided; cannot bootstrap tokens.", [])
  else
    match resp with
    | .failure _ => (.error "Failed to exchange authorization code", [])
    | .success tokens =>
        (.ok tokens, [Ev.writeFile tokens, Ev.writeSecretStore tokens])

/-- One stored version of a secret in the secret manager: a numeric
version identifier, the payload bytes, and the enabled state. -/
structure SecretVersion where
  id : Nat
  data : String
  enabled : Bool
deriving DecidableEq, Repr

/-- A secret container in the secret manager: its versions in creation
order and the identifier the next added version receives. -/
structure SecretContainer where
  versions : List SecretVersion
  nextId : Nat
deriving DecidableEq, Repr

/-- Failure injection for the remote secret-manager calls made by
`_disable_prior_versions`: whether `list_secret_versions` raises, and the
version identifiers whose `disable_secret_version` call raises. -/
structure GcpFailures where
  listFails : Bool
  disableFails : List Nat
deriving DecidableEq, Repr

/-- Embeds `GCPSecretStorage.ensure_secret` (gcp_secret_storage.py lines
26 to 39): create the container when absent, otherwise a no-op. -/
def ensure_secret (st : Option SecretContainer) : SecretContainer :=
  match st with
  | some c => c
  | none => { versions := [], nextId := 1 }

/-- Embeds the `add_secret_version` call: append the payload as a new
enabled version and return it together with its identifier. -/
def add_secret_version (c : SecretContainer) (payload : String) : SecretContainer × Nat :=
  ({ versions := c.versions ++ [{ id := c.nextId, data := payload, enabled := true }],
      nextId := c.nextId + 1 },
    c.nextId)

/-- Embeds one `disable_secret_version` call under failure injection:
the call either raises (swallowed by the caller) or returns the version
disabled. -/
def disable_secret_version (f : GcpFailures) (v : SecretVersion) : Except Unit SecretVersion :=
  if f.disableFails.contains v.id then .error () else .ok { v with enabled := false }

/-- Embeds the `list_secret_versions` call under failure injection. -/
def list_secret_versions (f : GcpFailures) (c : SecretContainer) :
    Except Unit (List SecretVersion) :=
  if f.listFails then .error () else .ok c.versions

/-- Embeds `GCPSecretStorage._disable_prior_versions`
(gcp_secret_storage.py lines 52 to 68): when listing raises, return
immediately; otherwise, for every listed version other than `keep` that
is enabled, attempt to disable it, and on a raise from the disable call
continue with the next version. -/
def disable_prior_versions (f : GcpFailures) (c : SecretContainer) (keep : Nat) :
    SecretContainer :=
  match list_secret_versions f c with
  | .error _ => c
  | .ok versions =>
      { c with
        versions := versions.map fun v =>
          if v.id = keep then v
          else if v.enabled then
            match disable_secret_version f v with
            | .ok v2 => v2
            | .error _ => v
          else v }

/-- Embeds `GCPSecretStorage.write_secret` (gcp_secret_storage.py lines
41 to 50): ensure the secret exists, add the payload as a new version,
disable prior versions best-effort, and return the new version
identifier.  The non-`Except` return type reflects that no failure of
the disabling phase reaches the caller. -/
def write_secret (st : Option SecretContainer) (payload : String) (f : GcpFailures) :
    SecretContainer × Nat :=
  let c := ensure_secret st
  let (c2, newId) := add_secret_version c payload
  (disable_prior_versions f c2 newId, newId)

/-- Embeds `get_token_payload` (token_access.py lines 16 to 45) after
configuration loading.  Inputs: the JSON parser as an oracle (json.loads
restricted to TokenSet fields, `none` for a decode error) and the result
of `storage.read_secret(secret_name)`.  A `None` or empty payload raises
the not-found error; a decode failure raises the invalid-JSON error;
otherwise the parsed payload is returned with no further validation.
The function takes no file-cache input: the source never touches the
local token file. -/
def get_token_payload (parse : String → Option TokenDict) (stored : Option String) :
    Except String TokenDict :=
  match stored with
  | none => .error "Secret not found"
  | some payload =>
      if payload.isEmpty then .error "Secret not found"
      else
        match parse payload with
        | none => .error "Secret contains invalid JSON; refresh the token first"
        | some data => .ok data

/-- Embeds `get_access_token` (token_access.py lines 48 to 64): delegate
to `get_token_payload`, then raise when `data.get("access_token")` is
falsy, else return the token. -/
def get_access_token (parse : String → Option TokenDict) (stored : Option String) :
    Except String String :=
  match get_token_payload parse stored with
  | .error e => .error e
  | .ok data =>
      match data.access_token with
      | none => .error "No access_token stored in Secret Manager"
      | some token =>
          if token.isEmpty then .error "No access_token stored in Secret Manager"
          else .ok token

/-- Boolean success test on an `Except` result. -/
def exceptOk : Except String α → Bool
  | .ok _ => true
  | .error _ => false

instance {ε α : Type} [DecidableEq ε] [DecidableEq α] : DecidableEq (Except ε α) := fun a b =>
  match a, b with
  | .ok x, .ok y =>
      if h : x = y then isTrue (by rw [h]) else isFalse (fun hh => h (Except.ok.inj hh))
  | .error x, .error y =>
      if h : x = y then isTrue (by rw [h]) else isFalse (fun hh => h (Except.error.inj hh))
  | .ok _, .error _ => isFalse (fun hh => Except.noConfusion hh)
  | .error _, .ok _ => isFalse (fun hh => Except.noConfusion hh)

/-- Test for an in-memory-commit event. -/
def isCommitEv : Ev → Bool
  | .commitMem _ => true
  | _ => false

/-- Test for a file-write event. -/
def isFileEv : Ev → Bool
  | .writeFile _ => true
  | _ => false

/-- Test for a secret-store-write event. -/
def isSecretEv : Ev → Bool
  | .writeSecretStore _ => true
  | _ => false

/-- Ordering on an event trace in which the file write strictly precedes
the secret-store write, which strictly precedes the in-memory commit. -/
def fileBeforeSecretBeforeCommit (evs : List Ev) : Bool :=
  match evs.findIdx? isFileEv, evs.findIdx? isSecretEv, evs.findIdx? isCommitEv with
  | some fi, some si, some ci => fi < si && si < ci
  | _, _, _ => false

theorem buildTokenData_access_token (p : TokenDict) (r : String) (now : Int) :
    (buildTokenData p r now).access_token = p.access_token := by
  unfold buildTokenData
  cases p.expires_in with
  | none => rfl
  | some n => by_cases h : n = 0 <;> simp [h]

theorem buildTokenData_refresh_token (p : TokenDict) (r : String) (now : Int) :
    (buildTokenData p r now).refresh_token = some (pyOrStr p.refresh_token r) := by
  unfold buildTokenData
  cases p.expires_in with
  | none => rfl
  | some n => by_cases h : n = 0 <;> simp [h]

theorem buildTokenData_token_type (p : TokenDict) (r : String) (now : Int) :
    (buildTokenData p r now).token_type = p.token_type := by
  unfold buildTokenData
  cases p.expires_in with
  | none => rfl
  | some n => by_cases h : n = 0 <;> simp [h]

theorem buildTokenData_scope (p : TokenDict) (r : String) (now : Int) :
    (buildTokenData p r now).scope = p.scope := by
  unfold buildTokenData
  cases p.expires_in with
  | none => rfl
  | some n => by_cases h : n = 0 <;> simp [h]

theorem buildTokenData_expires_in (p : TokenDict) (r : String) (now : Int) :
    (buildTokenData p r now).expires_in = p.expires_in := by
  unfold buildTokenData
  cases p.expires_in with
  | none => rfl
  | some n => by_cases h : n = 0 <;> simp [h]

theorem buildTokenData_updated_at (p : TokenDict) (r : String) (now : Int) :
    (buildTokenData p r now).updated_at = some now := by
  unfold buildTokenData
  cases p.expires_in with
  | none => rfl
  | some n => by_cases h : n = 0 <;> simp [h]

theorem buildTokenData_expires_at (p : TokenDict) (r : String) (now : Int) :
    (buildTokenData p r now).expires_at =
      match p.expires_in with
      | some n => if n ≠ 0 then some (now + n) else none
      | none => none := by
  unfold buildTokenData
  cases p.expires_in with
  | none => rfl
  | some n => by_cases h : n = 0 <;> simp [h]

/-- Shape of every successful `refresh_once` call: the request succeeded,
the returned dict is `buildTokenData` of the payload, it passed the
access-token check, both sinks and the in-memory state hold it, and the
event trace is commit, file write, secret-store write in program
order. -/
theorem refresh_once_ok_shape (st : RotatorState) (cfg : Option String) (resp : HttpResult)
    (now : Int) (td : TokenDict) (st2 : RotatorState) (evs : List Ev)
    (h : refresh_once st cfg resp now = (.ok td, st2, evs)) :
    ∃ payload r, resp = .success payload ∧
      resolveRefreshToken st.tokens.refresh_token cfg = .ok r ∧
      td = buildTokenData payload r now ∧
      strTruthy td.access_token = true ∧
      st2 = ⟨td, some td, some td⟩ ∧
      evs = [Ev.commitMem td, Ev.writeFile td, Ev.writeSecretStore td] := by
  unfold refresh_once at h
  cases hres : resolveRefreshToken st.tokens.refresh_token cfg with
  | error e => rw [hres] at h; simp at h
  | ok r =>
      rw [hres] at h
      cases resp with
      | failure code => simp at h
      | success payload =>
          simp only [] at h
          by_cases hat : strTruthy (buildTokenData payload r now).access_token
          · rw [if_neg (by simp [hat])] at h
            simp only [Prod.mk.injEq, Except.ok.injEq] at h
            obtain ⟨h1, h2, h3⟩ := h
            subst h1
            exact ⟨payload, r, rfl, rfl, rfl, hat, h2.symm, h3.symm⟩
          · rw [if_pos (by simp [hat])] at h
            simp at h

/-- Token dict produced by the concrete successful refresh used in the C1
theorems. -/
def c1td : TokenDict :=
  { access_token := some "A", refresh_token := some "R", updated_at := some 5 }

/-- C1, corrected: in every successful refresh cycle the file write still
happens before the secret-store write, but the in-memory TokenSet is
replaced first, before either write, not after both: the event trace of
`refresh_once` is always the in-memory commit, then the file write, then
the secret-store write. -/
theorem refresh_once_persist_order (st : RotatorState) (cfg : Option String)
    (resp : HttpResult) (now : Int) (td : TokenDict) (st2 : RotatorState) (evs : List Ev)
    (h : refresh_once st cfg resp now = (.ok td, st2, evs)) :
    evs = [Ev.commitMem td, Ev.writeFile td, Ev.writeSecretStore td] := by
  obtain ⟨p, r, -, -, -, -, -, hevs⟩ := refresh_once_ok_shape st cfg resp now td st2 evs h
  exact hevs

/-- Witness for the C1 theorem: a concrete successful refresh whose trace
is commit, file write, secret-store write. -/
theorem refresh_once_persist_order_witness :
    refresh_once ⟨{ refresh_token := some "R" }, none, none⟩ none
        (.success { access_token := some "A" }) 5 =
      (.ok c1td, ⟨c1td, some c1td, some c1td⟩,
        [Ev.commitMem c1td, Ev.writeFile c1td, Ev.writeSecretStore c1td]) ∧
    [Ev.commitMem c1td, Ev.writeFile c1td, Ev.writeSecretStore c1td] =
      [Ev.commitMem c1td, Ev.writeFile c1td, Ev.writeSecretStore c1td] :=
  ⟨by decide,
    refresh_once_persist_order ⟨{ refresh_token := some "R" }, none, none⟩ none
      (.success { access_token := some "A" }) 5 c1td ⟨c1td, some c1td, some c1td⟩
      [Ev.commitMem c1td, Ev.writeFile c1td, Ev.writeSecretStore c1td] (by decide)⟩

/-- Counterexample to C1 as stated: a concrete successful refresh cycle
whose event trace does not place the in-memory commit after the two
writes — the commit comes first. -/
theorem refresh_once_commit_first_cex :
    exceptOk (refresh_once ⟨{ refresh_token := some "R" }, none, none⟩ none
        (.success { access_token := some "A" }) 5).1 = true ∧
    fileBeforeSecretBeforeCommit
      (refresh_once ⟨{ refresh_token := some "R" }, none, none⟩ none
        (.success { access_token := some "A" }) 5).2.2 = false := by decide

/-- Token dict produced by the concrete successful refresh used in the C4
witness. -/
def c4td : TokenDict :=
  { access_token := some "A", refresh_token := some "R", expires_in := some 21600,
    updated_at := some 5, expires_at := some 21605 }

/-- C4, corrected: every successful `refresh_once` sets `updated_at` to
the call time and sets `expires_at = updated_at + expires_in` whenever
`expires_in` is present and nonzero in the response; `expires_at` is
absent when `expires_in` is absent, and also — against the claim as
stated — when `expires_in` is present but equal to zero, because the
source guards the derivation with Python truthiness (`if expires_in:`). -/
theorem refresh_once_timestamps (st : RotatorState) (cfg : Option String)
    (payload : TokenDict) (now : Int) (td : TokenDict) (st2 : RotatorState) (evs : List Ev)
    (h : refresh_once st cfg (.success payload) now = (.ok td, st2, evs)) :
    td.updated_at = some now ∧
    (∀ n : Int, payload.expires_in = some n → n ≠ 0 → td.expires_at = some (now + n)) ∧
    (payload.expires_in = none → td.expires_at = none) ∧
    (payload.expires_in = some 0 → td.expires_at = none) := by
  obtain ⟨p, r, hresp, -, htd, -, -, -⟩ := refresh_once_ok_shape _ _ _ _ _ _ _ h
  have hp : payload = p := by injection hresp
  subst hp
  subst htd
  refine ⟨buildTokenData_updated_at payload r now, ?_, ?_, ?_⟩
  · intro n hn hnz
    rw [buildTokenData_expires_at, hn]
    simp [hnz]
  · intro hn
    rw [buildTokenData_expires_at, hn]
  · intro hn
    rw [buildTokenData_expires_at, hn]
    simp

/-- Witness for the C4 theorem: a concrete refresh with
`expires_in = 21600` yields `updated_at = 5` and `expires_at = 5 + 21600`. -/
theorem refresh_once_timestamps_witness :
    refresh_once ⟨{ refresh_token := some "R" }, none, none⟩ none
        (.success { access_token := some "A", expires_in := some 21600 }) 5 =
      (.ok c4td, ⟨c4td, some c4td, some c4td⟩,
        [Ev.commitMem c4td, Ev.writeFile c4td, Ev.writeSecretStore c4td]) ∧
    c4td.updated_at = some 5 ∧ c4td.expires_at = some (5 + 21600) :=
  ⟨by decide,
    (refresh_once_timestamps ⟨{ refresh_token := some "R" }, none, none⟩ none
      { access_token := some "A", expires_in := some 21600 } 5 c4td
      ⟨c4td, some c4td, some c4td⟩
      [Ev.commitMem c4td, Ev.writeFile c4td, Ev.writeSecretStore c4td] (by decide)).1,
    (refresh_once_timestamps ⟨{ refresh_token := some "R" }, none, none⟩ none
      { access_token := some "A", expires_in := some 21600 } 5 c4td
      ⟨c4td, some c4td, some c4td⟩
      [Ev.commitMem c4td, Ev.writeFile c4td, Ev.writeSecretStore c4td] (by decide)).2.1
      21600 rfl (by decide)⟩

/-- Counterexample to C4 as stated: a success response carrying
`expires_in` equal to zero — present in the response, and copied into the
resulting dict — produces a TokenSet with no `expires_at`, where the
claim requires `expires_at = updated_at + 0`. -/
theorem refresh_once_expires_zero_cex :
    (refresh_once ⟨{ refresh_token := some "R" }, none, none⟩ none
        (.success { access_token := some "A", expires_in := some 0 }) 5).1 =
      .ok { access_token := some "A", refresh_token := some "R", expires_in := some 0,
            updated_at := some 5, expires_at := none } := by decide

/-- C5, confirmed: when the provider response carries no usable
`access_token` (absent or empty), `refresh_once` raises the hard
no-access-token error, the rotator state — in-memory tokens, file cache,
secret store — is exactly the state before the call, and no
state-changing event occurs. -/
theorem refresh_once_no_access_token (st : RotatorState) (cfg : Option String)
    (payload : TokenDict) (now : Int) (r : String)
    (hr : resolveRefreshToken st.tokens.refresh_token cfg = .ok r)
    (hat : strTruthy payload.access_token = false) :
    refresh_once st cfg (.success payload) now =
      (.error "No access_token returned by MercadoLibre", st, []) := by
  unfold refresh_once
  rw [hr]
  have hb : strTruthy (buildTokenData payload r now).access_token = false := by
    rw [buildTokenData_access_token]; exact hat
  simp [hb]

/-- Witness for the C5 theorem: a concrete response without
`access_token` leaves a concrete state untouched and raises. -/
theorem refresh_once_no_access_token_witness :
    refresh_once ⟨{ refresh_token := some "R" }, some { access_token := some "old" }, none⟩
        none (.success { token_type := some "bearer" }) 7 =
      (.error "No access_token returned by MercadoLibre",
        ⟨{ refresh_token := some "R" }, some { access_token := some "old" }, none⟩, []) :=
  refresh_once_no_access_token
    ⟨{ refresh_token := some "R" }, some { access_token := some "old" }, none⟩
    none { token_type := some "bearer" } 7 "R" (by decide) (by decide)

/-- Token dict produced by the concrete refresh used in the C6 witness. -/
def c6td : TokenDict :=
  { access_token := some "A2", refresh_token := some "R", token_type := some "bearer",
    expires_in := some 21600, updated_at := some 9, expires_at := some 21609 }

/-- C6, confirmed: when the response omits `refresh_token`, the TokenSet
produced by a successful `refresh_once` carries forward the refresh token
used for the request, and its `access_token`, `token_type`, `scope` and
`expires_in` are the response values. -/
theorem refresh_once_carry_forward (st : RotatorState) (cfg : Option String)
    (payload : TokenDict) (now : Int) (td : TokenDict) (st2 : RotatorState) (evs : List Ev)
    (r : String)
    (hr : resolveRefreshToken st.tokens.refresh_token cfg = .ok r)
    (homit : payload.refresh_token = none)
    (h : refresh_once st cfg (.success payload) now = (.ok td, st2, evs)) :
    td.refresh_token = some r ∧
    td.access_token = payload.access_token ∧
    td.token_type = payload.token_type ∧
    td.scope = payload.scope ∧
    td.expires_in = payload.expires_in := by
  obtain ⟨p, r2, hresp, hr2, htd, -, -, -⟩ := refresh_once_ok_shape _ _ _ _ _ _ _ h
  have hp : payload = p := by injection hresp
  subst hp
  rw [hr] at hr2
  have hrr : r2 = r := (Except.ok.inj hr2).symm
  rw [hrr] at htd
  subst htd
  refine ⟨?_, buildTokenData_access_token payload r now,
    buildTokenData_token_type payload r now, buildTokenData_scope payload r now,
    buildTokenData_expires_in payload r now⟩
  rw [buildTokenData_refresh_token, homit]
  rfl

/-- Witness for the C6 theorem: the concrete scenario from the spec —
response with a new access token, a bearer token type and an expiry but
no refresh token, issued while the current refresh token is R — yields a
TokenSet carrying R forward and copying the response fields. -/
theorem refresh_once_carry_forward_witness :
    refresh_once ⟨{ refresh_token := some "R" }, none, none⟩ none
        (.success
          { access_token := some "A2", token_type := some "bearer",
            expires_in := some 21600 }) 9 =
      (.ok c6td, ⟨c6td, some c6td, some c6td⟩,
        [Ev.commitMem c6td, Ev.writeFile c6td, Ev.writeSecretStore c6td]) ∧
    c6td.refresh_token = some "R" ∧
    c6td.access_token = some "A2" ∧
    c6td.token_type = some "bearer" ∧
    c6td.scope = none ∧
    c6td.expires_in = some 21600 :=
  ⟨by decide,
    refresh_once_carry_forward ⟨{ refresh_token := some "R" }, none, none⟩ none
      { access_token := some "A2", token_type := some "bearer", expires_in := some 21600 } 9
      c6td ⟨c6td, some c6td, some c6td⟩
      [Ev.commitMem c6td, Ev.writeFile c6td, Ev.writeSecretStore c6td] "R"
      (by decide) rfl (by decide)⟩

/-- C7, confirmed: the rotation loop processes every cycle outcome —
including raising ones — and follows each with a sleep: after a cycle
that raised, the sleep before the next attempt is `min 600 interval`
seconds, and after a successful cycle it is the full interval, where the
interval is resolved as in `run_forever`.  The trace is total and as long
as the outcome list, so no refresh failure makes the loop exit. -/
theorem run_forever_keeps_running (interval_seconds : Option Int)
    (rotation_interval_seconds : Int) (cycles : List (Except String TokenDict)) :
    (run_forever_trace (effectiveInterval interval_seconds rotation_interval_seconds)
        cycles).length = cycles.length ∧
    List.Forall₂
      (fun c s => s =
        match c with
        | Except.ok _ => effectiveInterval interval_seconds rotation_interval_seconds
        | Except.error _ =>
            min 600 (effectiveInterval interval_seconds rotation_interval_seconds))
      cycles
      (run_forever_trace (effectiveInterval interval_seconds rotation_interval_seconds)
        cycles) := by
  constructor
  · simp [run_forever_trace]
  · induction cycles with
    | nil => exact List.Forall₂.nil
    | cons c cs ih => exact List.Forall₂.cons rfl ih

/-- C2 counterexample input: a success response whose body has a refresh
token but no access token. -/
def c2payload : TokenDict := { refresh_token := some "R" }

/-- Counterexample to C2 as stated: when the authorization-code exchange
returns a success status whose body omits `access_token`,
`bootstrap_tokens` does not stop with an error — it returns the payload
and performs both persistence events, writing the invalid token set to
the File Cache and the Secret Store. -/
theorem bootstrap_tokens_no_validation_cex :
    bootstrap_tokens (some "AUTHCODE") "" (.success c2payload) =
      (.ok c2payload, [Ev.writeFile c2payload, Ev.writeSecretStore c2payload]) ∧
    strTruthy c2payload.access_token = false := by decide

/-- C2, corrected: on a success response `bootstrap_tokens` performs no
validation at all — unlike the refresh cycle, which checks
`access_token` before persisting — and unconditionally writes the raw
response body to the File Cache and then the Secret Store and returns
it, whether or not `access_token` is present. -/
theorem bootstrap_tokens_persists_unvalidated (auth_code : Option String) (entered : String)
    (payload : TokenDict)
    (hcode : (resolveAuthCode auth_code entered).isEmpty = false) :
    bootstrap_tokens auth_code entered (.success payload) =
      (.ok payload, [Ev.writeFile payload, Ev.writeSecretStore payload]) := by
  unfold bootstrap_tokens
  simp [hcode]

/-- Witness for the C2 theorem: a concrete provided auth code and a body
without `access_token` are persisted and returned. -/
theorem bootstrap_tokens_persists_unvalidated_witness :
    bootstrap_tokens (some "AUTHCODE") "" (.success c2payload) =
      (.ok c2payload, [Ev.writeFile c2payload, Ev.writeSecretStore c2payload]) :=
  bootstrap_tokens_persists_unvalidated (some "AUTHCODE") "" c2payload (by decide)

/-- C3 counterexample input: a token file whose dict is non-empty but
holds empty token strings, hence not a valid TokenSet. -/
def c3invalid : TokenDict := { access_token := some "", refresh_token := some "" }

/-- Counterexample to C3 as stated: a file-cache dict that is not a valid
TokenSet — both token fields present but empty — is adopted by
`TokenRotator._bootstrap_tokens` without falling through to the secret
store, because the source only tests dict truthiness, never TokenSet
validity. -/
theorem rotator_bootstrap_adopts_invalid_cex :
    rotator_bootstrap_tokens (.parsed c3invalid) .absent = .ok (c3invalid, false) ∧
    validTokenSet c3invalid = false := by decide

/-- C3, corrected: initialization adopts the File Cache content exactly
when it parses to a non-empty dict — with no check that it is a valid
TokenSet; otherwise it adopts the Secret Store content exactly when that
parses to a non-empty dict, in which case it also re-seeds the file; and
it fails fatally, without retry, exactly when both yield empty dicts. -/
theorem rotator_bootstrap_adoption (f : FileContent) (s : SecretContent) :
    (rotator_bootstrap_tokens f s = .ok (load_tokens_from_file f, false) ↔
      (load_tokens_from_file f).isEmpty = false) ∧
    (rotator_bootstrap_tokens f s = .ok (load_tokens_from_secret s, true) ↔
      ((load_tokens_from_file f).isEmpty = true ∧
        (load_tokens_from_secret s).isEmpty = false)) ∧
    (rotator_bootstrap_tokens f s =
        .error "No existing tokens found. Run the initializer to obtain the first token set." ↔
      ((load_tokens_from_file f).isEmpty = true ∧
        (load_tokens_from_secret s).isEmpty = true)) := by
  unfold rotator_bootstrap_tokens
  by_cases hf : (load_tokens_from_file f).isEmpty
  · by_cases hs : (load_tokens_from_secret s).isEmpty
    · simp [hf, hs]
    · simp [hf, hs]
  · simp [hf]

/-- C8, confirmed: `write_secret` ensures the secret exists, stores the
payload as a new enabled version, and returns that version's identifier
no matter which best-effort disable operations fail; a listing failure or
any set of individual disable failures never reaches the caller, and a
prior enabled version whose own disable call succeeds is disabled even
when disabling other versions fails. -/
theorem write_secret_best_effort (st : Option SecretContainer) (payload : String)
    (f : GcpFailures) :
    (write_secret st payload f).2 = (ensure_secret st).nextId ∧
    ({ id := (ensure_secret st).nextId, data := payload, enabled := true } : SecretVersion) ∈
      (write_secret st payload f).1.versions ∧
    (∀ v ∈ (ensure_secret st).versions,
      f.listFails = false → v.enabled = true → f.disableFails.contains v.id = false →
      v.id ≠ (ensure_secret st).nextId →
      ({ id := v.id, data := v.data, enabled := false } : SecretVersion) ∈
        (write_secret st payload f).1.versions) := by
  refine ⟨rfl, ?_, ?_⟩
  · unfold write_secret add_secret_version disable_prior_versions list_secret_versions
    by_cases hl : f.listFails
    · simp [hl]
    · simp only [hl, if_neg Bool.false_ne_true]
      refine List.mem_map.mpr
        ⟨{ id := (ensure_secret st).nextId, data := payload, enabled := true },
          List.mem_append_right _ (List.mem_singleton_self _), ?_⟩
      simp
  · intro v hv hl he hd hne
    unfold write_secret add_secret_version disable_prior_versions list_secret_versions
    simp only [hl]
    rw [if_neg (by simp)]
    refine List.mem_map.mpr ⟨v, List.mem_append_left _ hv, ?_⟩
    rw [if_neg hne, he]
    simp only [disable_secret_version, hd]
    rfl

/-- Witness for the C8 theorem: writing to a secret that has two enabled
versions while the disable call for version 1 fails still returns the new
identifier 3, stores the new enabled version, and disables version 2. -/
theorem write_secret_best_effort_witness :
    (write_secret (some ⟨[⟨1, "a", true⟩, ⟨2, "b", true⟩], 3⟩) "p" ⟨false, [1]⟩).2 = 3 ∧
    (⟨3, "p", true⟩ : SecretVersion) ∈
      (write_secret (some ⟨[⟨1, "a", true⟩, ⟨2, "b", true⟩], 3⟩) "p" ⟨false, [1]⟩).1.versions ∧
    (⟨2, "b", false⟩ : SecretVersion) ∈
      (write_secret (some ⟨[⟨1, "a", true⟩, ⟨2, "b", true⟩], 3⟩) "p" ⟨false, [1]⟩).1.versions :=
  ⟨(write_secret_best_effort (some ⟨[⟨1, "a", true⟩, ⟨2, "b", true⟩], 3⟩) "p" ⟨false, [1]⟩).1,
    (write_secret_best_effort (some ⟨[⟨1, "a", true⟩, ⟨2, "b", true⟩], 3⟩) "p"
      ⟨false, [1]⟩).2.1,
    (write_secret_best_effort (some ⟨[⟨1, "a", true⟩, ⟨2, "b", true⟩], 3⟩) "p"
      ⟨false, [1]⟩).2.2 ⟨2, "b", true⟩ (by decide) rfl rfl (by decide) (by decide)⟩

/-- Parser used in the C9 counterexample: json.loads succeeds on every
payload and yields a dict holding only a refresh token. -/
def c9parse : String → Option TokenDict := fun _ => some { refresh_token := some "R" }

/-- Counterexample to C9 as stated: a present secret whose payload is
valid JSON but whose dict has no `access_token` does not make the Token
Reader fail — `get_token_payload` returns the payload — while the claim
requires every call to fail when `access_token` is empty or missing. -/
theorem get_token_payload_missing_access_token_cex :
    get_token_payload c9parse (some "payload") = .ok { refresh_token := some "R" } ∧
    strTruthy (TokenDict.access_token { refresh_token := some "R" }) = false := by
  constructor
  · rfl
  · rfl

/-- C9, corrected: the Token Reader takes no file-cache input at all;
`get_token_payload` fails exactly when the secret is absent (a missing or
empty stored payload) or the payload is not valid JSON, and otherwise
returns the stored payload even when its `access_token` is missing or
empty; only `get_access_token` additionally fails on a missing or empty
`access_token`, returning it otherwise. -/
theorem token_reader_failure_conditions (parse : String → Option TokenDict)
    (stored : Option String) :
    (exceptOk (get_token_payload parse stored) = true ↔
      ∃ s, stored = some s ∧ s.isEmpty = false ∧ (parse s).isSome = true) ∧
    (∀ s d, stored = some s → s.isEmpty = false → parse s = some d →
      get_token_payload parse stored = .ok d) ∧
    (exceptOk (get_access_token parse stored) = true ↔
      ∃ s d, stored = some s ∧ s.isEmpty = false ∧ parse s = some d ∧
        strTruthy d.access_token = true) ∧
    (∀ s d t, stored = some s → s.isEmpty = false → parse s = some d →
      d.access_token = some t → t.isEmpty = false →
      get_access_token parse stored = .ok t) := by
  have key : ∀ s d, stored = some s → s.isEmpty = false → parse s = some d →
      get_token_payload parse stored = .ok d := by
    intro s d hst hs hp
    subst hst
    simp [get_token_payload, hs, hp]
  refine ⟨?_, key, ?_, ?_⟩
  · cases stored with
    | none => simp [get_token_payload, exceptOk]
    | some s =>
        by_cases hs : s.isEmpty
        · simp [get_token_payload, exceptOk, hs]
        · cases hp : parse s with
          | none => simp [get_token_payload, exceptOk, hs, hp]
          | some d => simp [get_token_payload, exceptOk, hs, hp]
  · cases stored with
    | none => simp [get_access_token, get_token_payload, exceptOk]
    | some s =>
        by_cases hs : s.isEmpty
        · simp [get_access_token, get_token_payload, exceptOk, hs]
        · cases hp : parse s with
          | none => simp [get_access_token, get_token_payload, exceptOk, hs, hp]
          | some d =>
              cases hat : d.access_token with
              | none =>
                  simp [get_access_token, get_token_payload, exceptOk, hs, hp, hat, strTruthy]
              | some t =>
                  by_cases ht : t.isEmpty <;>
                    simp [get_access_token, get_token_payload, exceptOk, hs, hp, hat,
                      strTruthy, ht]
  · intro s d t hst hs hp hat ht
    rw [get_access_token, key s d hst hs hp]
    simp [hat, ht]

/-- Dict returned by the parser in the C9 witness. -/
def c9dict : TokenDict := { access_token := some "T", refresh_token := some "R" }

/-- Witness for the C9 theorem: a concrete parser and stored payload on
which both reader functions succeed with the stored values. -/
theorem token_reader_failure_conditions_witness :
    get_token_payload (fun s => if s = "good" then some c9dict else none)
        (some "good") = .ok c9dict ∧
    get_access_token (fun s => if s = "good" then some c9dict else none)
        (some "good") = .ok "T" :=
  ⟨(token_reader_failure_conditions (fun s => if s = "good" then some c9dict else none)
      (some "good")).2.1 "good" c9dict rfl (by decide) (by simp),
    (token_reader_failure_conditions (fun s => if s = "good" then some c9dict else none)
      (some "good")).2.2.2 "good" c9dict "T" rfl (by decide) (by simp) rfl
      (by decide)⟩

/-- C10, confirmed: the configured `MELI_REFRESH_TOKEN` fallback is
consulted exactly when the in-memory dict's `refresh_token` is missing or
empty — when the field holds a non-empty string, the resolution succeeds
with it even if the configuration key is unset, and when the field is
missing or empty the resolution is exactly the `require` lookup, which
fails when the key is unset; moreover an empty-string `refresh_token` in
the provider response is treated as absent, so the token used for the
request is carried forward into the result. -/
theorem refresh_token_fallback_truthiness (mem cfg : Option String) (payload : TokenDict)
    (r : String) (now : Int) :
    ((mem = none ∨ mem = some "") →
      resolveRefreshToken mem cfg = configRequire "MELI_REFRESH_TOKEN" cfg) ∧
    ((mem = none ∨ mem = some "") → cfg = none →
      resolveRefreshToken mem cfg =
        .error "Missing required config value: MELI_REFRESH_TOKEN") ∧
    (∀ s : String, mem = some s → s.isEmpty = false → resolveRefreshToken mem cfg = .ok s) ∧
    (payload.refresh_token = some "" →
      (buildTokenData payload r now).refresh_token = some r) := by
  refine ⟨?_, ?_, ?_, ?_⟩
  · rintro (rfl | rfl)
    · rfl
    · rfl
  · rintro (rfl | rfl) rfl
    · rfl
    · rfl
  · rintro s rfl hs
    simp [resolveRefreshToken, hs]
  · intro hrt
    rw [buildTokenData_refresh_token, hrt]
    rfl

/-- Witness for the C10 theorem: with an empty in-memory refresh token
and the configuration key unset, resolution fails with the require
error; and a response with an empty-string refresh token carries the
request token R forward. -/
theorem refresh_token_fallback_truthiness_witness :
    resolveRefreshToken (some "") none =
      .error "Missing required config value: MELI_REFRESH_TOKEN" ∧
    (buildTokenData { refresh_token := some "" } "R" 0).refresh_token = some "R" :=
  ⟨(refresh_token_fallback_truthiness (some "") none { refresh_token := some "" } "R" 0).2.1
      (Or.inr rfl) rfl,
    (refresh_token_fallback_truthiness (some "") none { refresh_token := some "" } "R" 0).2.2.2
      rfl⟩

end Meli
